import Mathlib

/-!
Verification of the appointment persistence layer and tool adapter of the
appointment-scheduler repository (src/db.py and src/agent.py), as a shallow
embedding in Lean.

Modelling conventions:
* The SQLite database is a `DB` value: a flag for whether the `appointments`
  table exists, the next AUTOINCREMENT id, the engine clock string returned by
  `datetime('now')` at the moment of the operation, and the list of rows in
  insertion order.
* `scheduled_at`, `created_at` and the engine clock are sortable text; SQLite
  compares TEXT columns with the BINARY collation (byte order of the UTF-8
  encoding), which coincides with Lean's lexicographic `String` order on
  code points, since UTF-8 preserves code-point order.
* A storage fault (`sqlite3.Error` raised by the INSERT statement) is an
  environment effect; it is injected as an explicit `Option String` argument
  carrying the engine's error text, `none` meaning the statement succeeds.
* Python's `ValueError` (the conflict failure) and `sqlite3.Error` (the
  storage failure) become the two constructors of `DbError`; the spec calls
  them `ConflictError` and `StorageError`.
-/

/-- One row of the `appointments` table (src/db.py, `appointments_schema`). -/
structure Row where
  id : Nat
  created_at : String
  patient_name : String
  doctor_name : String
  scheduled_at : String
  summary : String
  appointment_notes : String
deriving Repr, DecidableEq

/-- The state of the SQLite store.  `now` is the TEXT value the engine's
`datetime('now')` yields at the moment of the operation being modelled. -/
structure DB where
  tableExists : Bool
  nextId : Nat
  now : String
  rows : List Row
deriving Repr, DecidableEq

/-- The two failure kinds `insert_appointment` can return: `valueError` is the
Python `ValueError` raised for a conflict (the spec's `ConflictError`),
`sqliteError` is a caught `sqlite3.Error` (the spec's `StorageError`), each
carrying its message text. -/
inductive DbError where
  | valueError (msg : String)
  | sqliteError (msg : String)
deriving Repr, DecidableEq

/-- The message of an error, as Python's `str(error)` renders it in an
f-string. -/
def DbError.msg : DbError → String
  | .valueError m => m
  | .sqliteError m => m

/-- Embedding of `init_db` (src/db.py): runs the schema script, which is a
single `CREATE TABLE IF NOT EXISTS appointments (...)` statement.  It creates
the table when absent and otherwise does nothing; it never drops or rewrites
rows. -/
def init_db (db : DB) : DB :=
  { db with tableExists := true }

/-- Embedding of `check_for_conflicting_appointments` (src/db.py):
`SELECT COUNT(*) FROM appointments WHERE scheduled_at = ? AND doctor_name = ?`
followed by `count > 0`.  TEXT equality under BINARY collation is exact,
case-sensitive string equality. -/
def check_for_conflicting_appointments (db : DB) (scheduled_at doctor_name : String) : Bool :=
  0 < db.rows.countP (fun r => r.scheduled_at = scheduled_at && r.doctor_name = doctor_name)

/-- The exact message of the `ValueError` built in `insert_appointment`. -/
def conflictMsg : String :=
  "Conflicting appointment found, ask the user to schedule a different time."

/-- Embedding of `insert_appointment` (src/db.py).  Returns the pair the
Python function returns, plus the store state after the call.

The Python body first runs the conflict pre-check; on conflict it returns
`(None, ValueError(...))` without touching the table.  Otherwise it executes
`INSERT ... RETURNING *`; `fault = some msg` models that statement raising
`sqlite3.Error(msg)`, caught by the `except` clause, which returns
`(None, e)` with the table unchanged (the transaction is never committed).
On success the cursor's `fetchone()` gives the inserted row as a tuple
`(id, created_at, patient_name, doctor_name, scheduled_at, summary,
appointment_notes)` and the function returns `(row[0], None)` — the first
column of that tuple, i.e. the new id, not the whole record.  The new row's
`id` is the AUTOINCREMENT value and `created_at` defaults to
`datetime('now')`. -/
def insert_appointment (db : DB)
    (patient_name doctor_name scheduled_at summary appointment_notes : String)
    (fault : Option String) :
    Option Nat × Option DbError × DB :=
  if check_for_conflicting_appointments db scheduled_at doctor_name then
    (none, some (DbError.valueError conflictMsg), db)
  else
    match fault with
    | some m => (none, some (DbError.sqliteError m), db)
    | none =>
      let row : Row :=
        { id := db.nextId
          created_at := db.now
          patient_name := patient_name
          doctor_name := doctor_name
          scheduled_at := scheduled_at
          summary := summary
          appointment_notes := appointment_notes }
      (some row.id, none, { db with nextId := db.nextId + 1, rows := db.rows ++ [row] })

/-- A call of `insert_appointment` that omits the `appointment_notes`
argument, as the adapter does: the Python parameter defaults to `""`. -/
def insert_appointment_omitting_notes (db : DB)
    (patient_name doctor_name scheduled_at summary : String)
    (fault : Option String) :
    Option Nat × Option DbError × DB :=
  insert_appointment db patient_name doctor_name scheduled_at summary "" fault

/-- Embedding of `select_appointments` (src/db.py):
`SELECT * FROM appointments`. -/
def select_appointments (db : DB) : List Row :=
  db.rows

/-- Embedding of `select_appointments_by_patient` (src/db.py):
`SELECT * FROM appointments WHERE patient_name = ?` with, when `future_only`
is true, the extra conjunct `AND scheduled_at > datetime('now')`.  Both the
equality and the `>` are BINARY-collation TEXT comparisons: exact
case-sensitive equality, and lexicographic order against the engine clock,
modelled on the code-point sequences (`String.data`), which UTF-8 byte order
coincides with. -/
def select_appointments_by_patient (db : DB) (patient_name : String) (future_only : Bool) :
    List Row :=
  db.rows.filter (fun r =>
    r.patient_name = patient_name &&
      (if future_only then decide (db.now.data < r.scheduled_at.data) else true))

/-!
Embedding of the `Assistant` tool methods of src/agent.py.  The `RunContext`
argument is unused by every method and is dropped.  The LLM instructions,
speech pipeline and session wiring are external collaborators outside the
embedded core.
-/

/-- Embedding of `Assistant.get_doctors` (src/agent.py): a hard-coded list. -/
def get_doctors : List String :=
  ["Dr. Smith", "Dr. Williams", "Dr. Brown"]

/-- Embedding of `Assistant.get_office_hours` (src/agent.py): a hard-coded
list. -/
def get_office_hours : List String :=
  ["Monday - Friday: 9:00 AM - 5:00 PM", "Saturday - Sunday: 10:00 AM - 4:00 PM"]

/-- The wall clock observed by `datetime.now()` at the moment of a call:
calendar fields plus `weekday()` (0 = Monday .. 6 = Sunday). -/
structure Clock where
  year : Nat
  month : Nat
  day : Nat
  hour : Nat
  minute : Nat
  second : Nat
  weekday : Nat
deriving Repr, DecidableEq

/-- The decimal digit character for `n % 10`. -/
def digitChar (n : Nat) : Char :=
  if n % 10 = 0 then '0' else if n % 10 = 1 then '1' else if n % 10 = 2 then '2'
  else if n % 10 = 3 then '3' else if n % 10 = 4 then '4' else if n % 10 = 5 then '5'
  else if n % 10 = 6 then '6' else if n % 10 = 7 then '7' else if n % 10 = 8 then '8'
  else '9'

/-- Zero-padded two-digit decimal rendering, as strftime's `%m`, `%d`, `%H`,
`%M`, `%S` produce for their in-range values (all below 100). -/
def pad2 (n : Nat) : String :=
  String.mk [digitChar (n / 10), digitChar n]

/-- Zero-padded four-digit decimal rendering, as strftime's `%Y` produces for
years below 10000. -/
def pad4 (n : Nat) : String :=
  String.mk [digitChar (n / 1000), digitChar (n / 100), digitChar (n / 10), digitChar n]

/-- `datetime.now().strftime("%Y-%m-%d %H:%M:%S")` on the observed clock. -/
def strftimeYmdHms (c : Clock) : String :=
  pad4 c.year ++ "-" ++ pad2 c.month ++ "-" ++ pad2 c.day ++ " " ++
    pad2 c.hour ++ ":" ++ pad2 c.minute ++ ":" ++ pad2 c.second

/-- The `days_of_the_week` dictionary of `get_current_date_and_time`
(src/agent.py), keys 0..6.  Python's `weekday()` only ever produces 0..6, so
the catch-all arm is never reached on real inputs. -/
def days_of_the_week : Nat → String
  | 0 => "Monday"
  | 1 => "Tuesday"
  | 2 => "Wednesday"
  | 3 => "Thursday"
  | 4 => "Friday"
  | 5 => "Saturday"
  | _ => "Sunday"

/-- Embedding of `Assistant.get_current_date_and_time` (src/agent.py):
`datetime.now().strftime("%Y-%m-%d %H:%M:%S") + " " + days_of_the_week[datetime.now().weekday()]`. -/
def get_current_date_and_time (c : Clock) : String :=
  strftimeYmdHms c ++ " " ++ days_of_the_week c.weekday

/-- Modelled from the spec: the scenario pattern
`^\d\x7b4\x7d-\d\x7b2\x7d-\d\x7b2\x7d \d\x7b2\x7d:\d\x7b2\x7d:\d\x7b2\x7d`
matched "exactly, with nothing appended after the seconds field": the string
is exactly 19 characters laid out as `dddd-dd-dd dd:dd:dd`. -/
def matchesYmdHmsExactly (str : String) : Bool :=
  match str.data with
  | [y1, y2, y3, y4, s1, m1, m2, s2, d1, d2, s3, h1, h2, s4, n1, n2, s5, c1, c2] =>
    y1.isDigit && y2.isDigit && y3.isDigit && y4.isDigit && s1 = '-' &&
      m1.isDigit && m2.isDigit && s2 = '-' && d1.isDigit && d2.isDigit &&
      s3 = ' ' && h1.isDigit && h2.isDigit && s4 = ':' && n1.isDigit &&
      n2.isDigit && s5 = ':' && c1.isDigit && c2.isDigit
  | _ => false

/-- Embedding of `Assistant.add_appointment` (src/agent.py): calls
`insert_appointment(patient_name, doctor_name, scheduled_at, summary)` —
omitting the notes argument — and returns
`f"Error inserting appointment: \x7berror\x7d"` when `error` is truthy
(both `ValueError` and `sqlite3.Error` render as their message), else
`f"Appointment added successfully. Created: \x7bappointment\x7d"` where
`appointment` is the value `insert_appointment` returned (the new row id,
rendered in decimal).  The pair also carries the store state after the call.
When `error` is `none` the insert succeeded, so `appointment` is `some id`
and the `getD` default is never used. -/
def add_appointment (db : DB) (patient_name doctor_name scheduled_at summary : String)
    (fault : Option String) : String × DB :=
  match insert_appointment_omitting_notes db patient_name doctor_name scheduled_at summary fault with
  | (_, some e, db2) => ("Error inserting appointment: " ++ e.msg, db2)
  | (appointment, none, db2) =>
    ("Appointment added successfully. Created: " ++ toString (appointment.getD 0), db2)

/-- Embedding of `Assistant.get_appointments_for_patient` (src/agent.py):
`select_appointments_by_patient(patient_name)` with `future_only` left at its
Python default `False`. -/
def get_appointments_for_patient (db : DB) (patient_name : String) : List Row :=
  select_appointments_by_patient db patient_name false

/-!
A small operation language covering every store and adapter operation, to
state system-wide invariants such as rows never being updated or deleted.
`opSetClock` is not a repository operation: it models the engine clock
advancing between calls, so invariants proved over `runOps` hold across real
time passing.
-/

/-- One invocation of a store or adapter operation (or a clock advance of the
environment). -/
inductive Op where
  | opInit
  | opCheckConflict (scheduled_at doctor_name : String)
  | opInsert (patient_name doctor_name scheduled_at summary appointment_notes : String)
      (fault : Option String)
  | opListAll
  | opListByPatient (patient_name : String) (future_only : Bool)
  | opAddAppointment (patient_name doctor_name scheduled_at summary : String)
      (fault : Option String)
  | opGetAppointmentsForPatient (patient_name : String)
  | opGetDoctors
  | opGetOfficeHours
  | opGetCurrentDateTime (c : Clock)
  | opSetClock (now : String)
deriving Repr, DecidableEq

/-- The store state after one operation.  Read-only operations (every SELECT,
and the static tools) leave it untouched; only the two insert paths can change
it. -/
def Op.apply (db : DB) : Op → DB
  | .opInit => init_db db
  | .opCheckConflict _ _ => db
  | .opInsert p d t s n f => (insert_appointment db p d t s n f).2.2
  | .opListAll => db
  | .opListByPatient _ _ => db
  | .opAddAppointment p d t s f => (add_appointment db p d t s f).2
  | .opGetAppointmentsForPatient _ => db
  | .opGetDoctors => db
  | .opGetOfficeHours => db
  | .opGetCurrentDateTime _ => db
  | .opSetClock now => { db with now := now }

/-- The store state after a sequence of operations. -/
def runOps (db : DB) (ops : List Op) : DB :=
  ops.foldl Op.apply db

/-!
Concrete states for witnesses and counterexamples.
-/

/-- A fresh store right after `init_db` on an empty database, the engine
clock fixed at an arbitrary instant.  SQLite AUTOINCREMENT starts at 1. -/
def freshDB : DB :=
  { tableExists := true, nextId := 1, now := "2025-03-01 12:00:00", rows := [] }

/-- The row the spec scenario inserts first. -/
def johnRow : Row :=
  { id := 1
    created_at := "2025-03-01 12:00:00"
    patient_name := "John Doe"
    doctor_name := "Dr. Smith"
    scheduled_at := "2025-03-05 09:00:00"
    summary := "checkup"
    appointment_notes := "" }

/-- The store after the spec scenario's first successful insert. -/
def oneRowDB : DB :=
  { tableExists := true, nextId := 2, now := "2025-03-01 12:00:00", rows := [johnRow] }

/-- A concrete clock: Wednesday 2025-03-05 09:00:00 (weekday index 2). -/
def sampleClock : Clock :=
  { year := 2025, month := 3, day := 5, hour := 9, minute := 0, second := 0, weekday := 2 }

/-!
Theorems settling the claims.
-/

/-- C1: if the store already holds exactly one row for a `(doctor_name,
scheduled_at)` pair, a second `insert_appointment` with that pair (any
patient name, any notes, whatever the fault environment) returns no record
and a `ConflictError` (the `ValueError`), which is distinct from every
`StorageError` (`sqlite3.Error`); the store state is unchanged, so the row
count for the pair stays 1. -/
theorem insert_conflict_fails_and_preserves_store
    (db : DB) (p d t s n : String) (fault : Option String)
    (hcount : db.rows.countP (fun r => r.scheduled_at = t && r.doctor_name = d) = 1) :
    (insert_appointment db p d t s n fault).1 = none ∧
    (insert_appointment db p d t s n fault).2.1 = some (DbError.valueError conflictMsg) ∧
    (∀ m, DbError.valueError conflictMsg ≠ DbError.sqliteError m) ∧
    (insert_appointment db p d t s n fault).2.2 = db ∧
    (insert_appointment db p d t s n fault).2.2.rows.countP
      (fun r => r.scheduled_at = t && r.doctor_name = d) = 1 := by
  have hc : check_for_conflicting_appointments db t d = true := by
    simp [check_for_conflicting_appointments, hcount]
  simp [insert_appointment, hc, hcount]

/-- Witness for C1: the spec scenario, on the store holding John Doe's
appointment with Dr. Smith at 2025-03-05 09:00:00. -/
theorem insert_conflict_fails_and_preserves_store_witness :
    (oneRowDB.rows.countP
        (fun r => r.scheduled_at = "2025-03-05 09:00:00" && r.doctor_name = "Dr. Smith") = 1) ∧
    (insert_appointment oneRowDB "Jane Doe" "Dr. Smith" "2025-03-05 09:00:00" "checkup" ""
        none).2.2 = oneRowDB :=
  ⟨by decide,
    (insert_conflict_fails_and_preserves_store oneRowDB "Jane Doe" "Dr. Smith"
      "2025-03-05 09:00:00" "checkup" "" none (by decide)).2.2.2.1⟩

/-- C2: with no existing row at `(doctor_name, scheduled_at)` and no storage
fault, `insert_appointment` succeeds, and `select_appointments_by_patient`
on the resulting store includes the record just inserted — exactly once,
witnessed by its fresh id (the hypothesis that no stored row already carries
`db.nextId` is the AUTOINCREMENT invariant). -/
theorem insert_then_list_by_patient_roundtrip
    (db : DB) (p d t s n : String)
    (hnoconf : check_for_conflicting_appointments db t d = false)
    (hfresh : ∀ r ∈ db.rows, r.id ≠ db.nextId) :
    (insert_appointment db p d t s n none).2.1 = none ∧
    ({ id := db.nextId, created_at := db.now, patient_name := p, doctor_name := d,
        scheduled_at := t, summary := s, appointment_notes := n } : Row) ∈
      select_appointments_by_patient (insert_appointment db p d t s n none).2.2 p false ∧
    (select_appointments_by_patient (insert_appointment db p d t s n none).2.2 p
        false).filter (fun r => r.id = db.nextId) =
      [{ id := db.nextId, created_at := db.now, patient_name := p, doctor_name := d,
          scheduled_at := t, summary := s, appointment_notes := n }] := by
  refine ⟨by simp [insert_appointment, hnoconf], ?_, ?_⟩
  · simp [insert_appointment, hnoconf, select_appointments_by_patient]
  · simp only [insert_appointment, hnoconf, Bool.false_eq_true, if_false,
      select_appointments_by_patient, List.filter_append, List.filter_filter]
    rw [List.filter_eq_nil_iff.mpr, List.nil_append]
    · simp
    · intro r hr
      simp only [Bool.and_eq_true, decide_eq_true_eq, Bool.if_true_right]
      intro hcontra
      exact hfresh r hr hcontra.1

/-- Witness for C2: the spec scenario's first insert on a fresh store. -/
theorem insert_then_list_by_patient_roundtrip_witness :
    check_for_conflicting_appointments freshDB "2025-03-05 09:00:00" "Dr. Smith" = false ∧
    johnRow ∈ select_appointments_by_patient
      (insert_appointment freshDB "John Doe" "Dr. Smith" "2025-03-05 09:00:00" "checkup" ""
        none).2.2 "John Doe" false :=
  ⟨by decide,
    (insert_then_list_by_patient_roundtrip freshDB "John Doe" "Dr. Smith"
      "2025-03-05 09:00:00" "checkup" "" (by decide) (by decide)).2.1⟩

/-- C3: the code bug behind the claim.  At the spec scenario's input on a
fresh store the insert succeeds and the persisted record has all seven
fields, but the success value the function returns is `row[0]` — only the
new id (here `some 1`), not the persisted record, although the function is
annotated `tuple[Optional[dict], Optional[...]]` and the spec promises the
full record. -/
theorem insert_returns_only_id_not_record :
    (insert_appointment freshDB "John Doe" "Dr. Smith" "2025-03-05 09:00:00" "checkup" ""
        none).1 = some johnRow.id ∧
    (insert_appointment freshDB "John Doe" "Dr. Smith" "2025-03-05 09:00:00" "checkup" ""
        none).2.2.rows = [johnRow] := by
  exact ⟨rfl, rfl⟩

/-- C4 counterexample: when the INSERT raises a `sqlite3.Error` whose text is
`"database disk image is malformed"`, `add_appointment` returns that raw
engine text to the caller, appended to its error template — not a generic
apology, contrary to the claim that engine error text is never included in
the user-facing return value. -/
theorem add_appointment_leaks_engine_error_text :
    (add_appointment freshDB "John Doe" "Dr. Smith" "2025-03-05 09:00:00" "checkup"
        (some "database disk image is malformed")).1 =
      "Error inserting appointment: " ++ "database disk image is malformed" := by
  rfl

/-- C4 amended: `add_appointment` is a total function of its inputs (it never
raises: every failure of `insert_appointment` is returned, not thrown) and
its user-facing string is fully characterised: on a conflict it echoes the
`ConflictError` message, on a storage fault it echoes the raw engine error
text, and on success it reports the new row's id. -/
theorem add_appointment_total_result
    (db : DB) (p d t s : String) (fault : Option String) :
    (check_for_conflicting_appointments db t d = true →
      (add_appointment db p d t s fault).1 = "Error inserting appointment: " ++ conflictMsg) ∧
    (∀ m, check_for_conflicting_appointments db t d = false → fault = some m →
      (add_appointment db p d t s fault).1 = "Error inserting appointment: " ++ m) ∧
    (check_for_conflicting_appointments db t d = false → fault = none →
      (add_appointment db p d t s fault).1 =
        "Appointment added successfully. Created: " ++ toString db.nextId) := by
  refine ⟨fun hc => ?_, fun m hc hf => ?_, fun hc hf => ?_⟩
  · simp [add_appointment, insert_appointment_omitting_notes, insert_appointment, hc,
      DbError.msg]
  · subst hf
    simp [add_appointment, insert_appointment_omitting_notes, insert_appointment, hc,
      DbError.msg]
  · subst hf
    simp [add_appointment, insert_appointment_omitting_notes, insert_appointment, hc]

/-- Witness for C4's amended theorem: the success branch on a fresh store. -/
theorem add_appointment_total_result_witness :
    check_for_conflicting_appointments freshDB "2025-03-05 09:00:00" "Dr. Smith" = false ∧
    (add_appointment freshDB "John Doe" "Dr. Smith" "2025-03-05 09:00:00" "checkup" none).1 =
      "Appointment added successfully. Created: " ++ toString freshDB.nextId :=
  ⟨by decide,
    (add_appointment_total_result freshDB "John Doe" "Dr. Smith" "2025-03-05 09:00:00"
      "checkup" none).2.2 (by decide) rfl⟩

/-- C5: `select_appointments_by_patient` with `future_only = true` returns
exactly the stored rows whose `patient_name` equals the argument by exact
case-sensitive string equality and whose `scheduled_at` is lexicographically
greater than the engine clock; every row with `scheduled_at` lexicographically
less than or equal to the clock is excluded. -/
theorem list_by_patient_future_only_filters (db : DB) (name : String) (r : Row) :
    (r ∈ select_appointments_by_patient db name true ↔
      r ∈ db.rows ∧ r.patient_name = name ∧ db.now.data < r.scheduled_at.data) ∧
    (r.scheduled_at.data ≤ db.now.data → r ∉ select_appointments_by_patient db name true) := by
  have hiff : r ∈ select_appointments_by_patient db name true ↔
      r ∈ db.rows ∧ r.patient_name = name ∧ db.now.data < r.scheduled_at.data := by
    simp [select_appointments_by_patient, List.mem_filter, and_assoc]
  refine ⟨hiff, fun hle hmem => ?_⟩
  exact absurd (hiff.mp hmem).2.2 (not_lt.mpr hle)

/-- Witness for C5: on a store holding one past and one future appointment
for John Doe, the future-only listing keeps the future row and drops the
past one. -/
theorem list_by_patient_future_only_filters_witness :
    (johnRow ∈ select_appointments_by_patient
        { tableExists := true, nextId := 3, now := "2025-03-01 12:00:00",
          rows := [johnRow,
            { id := 2, created_at := "2025-03-01 12:00:00", patient_name := "John Doe",
              doctor_name := "Dr. Brown", scheduled_at := "2025-02-01 09:00:00",
              summary := "past visit", appointment_notes := "" }] }
        "John Doe" true) ∧
    (({ id := 2, created_at := "2025-03-01 12:00:00", patient_name := "John Doe",
        doctor_name := "Dr. Brown", scheduled_at := "2025-02-01 09:00:00",
        summary := "past visit", appointment_notes := "" } : Row) ∉
      select_appointments_by_patient
        { tableExists := true, nextId := 3, now := "2025-03-01 12:00:00",
          rows := [johnRow,
            { id := 2, created_at := "2025-03-01 12:00:00", patient_name := "John Doe",
              doctor_name := "Dr. Brown", scheduled_at := "2025-02-01 09:00:00",
              summary := "past visit", appointment_notes := "" }] }
        "John Doe" true) :=
  ⟨(list_by_patient_future_only_filters
      { tableExists := true, nextId := 3, now := "2025-03-01 12:00:00",
        rows := [johnRow,
          { id := 2, created_at := "2025-03-01 12:00:00", patient_name := "John Doe",
            doctor_name := "Dr. Brown", scheduled_at := "2025-02-01 09:00:00",
            summary := "past visit", appointment_notes := "" }] }
      "John Doe" johnRow).1.mpr ⟨by simp [johnRow], by decide, by decide⟩,
   (list_by_patient_future_only_filters
      { tableExists := true, nextId := 3, now := "2025-03-01 12:00:00",
        rows := [johnRow,
          { id := 2, created_at := "2025-03-01 12:00:00", patient_name := "John Doe",
            doctor_name := "Dr. Brown", scheduled_at := "2025-02-01 09:00:00",
            summary := "past visit", appointment_notes := "" }] }
      "John Doe"
      { id := 2, created_at := "2025-03-01 12:00:00", patient_name := "John Doe",
        doctor_name := "Dr. Brown", scheduled_at := "2025-02-01 09:00:00",
        summary := "past visit", appointment_notes := "" }).2 (by decide)⟩

/-- C6 counterexample: `insert_appointment` with every required argument
empty succeeds on a fresh store — no error is returned and a row with empty
`patient_name`, `doctor_name` and `scheduled_at` is created — refuting the
claim that the store fails such calls: SQLite's NOT NULL constraints reject
only NULL, never the empty string, and the function performs no emptiness
check of its own. -/
theorem insert_accepts_empty_arguments :
    (insert_appointment freshDB "" "" "" "" "" none).2.1 = none ∧
    (insert_appointment freshDB "" "" "" "" "" none).2.2.rows =
      [{ id := 1, created_at := "2025-03-01 12:00:00", patient_name := "",
          doctor_name := "", scheduled_at := "", summary := "",
          appointment_notes := "" }] := by
  exact ⟨rfl, rfl⟩

/-- C6 amended: the store validates nothing at all — neither non-emptiness
nor any domain rule.  `insert_appointment` succeeds exactly when the conflict
pre-check is negative and no storage fault occurs, whatever the argument
strings contain (empty ones included). -/
theorem insert_validates_nothing (db : DB) (p d t s n : String) (fault : Option String) :
    (insert_appointment db p d t s n fault).2.1 = none ↔
      check_for_conflicting_appointments db t d = false ∧ fault = none := by
  unfold insert_appointment
  rcases hconf : check_for_conflicting_appointments db t d <;> cases fault <;> simp

/-- Witness for C6's amended theorem: the all-empty call on a fresh store
succeeds. -/
theorem insert_validates_nothing_witness :
    (insert_appointment freshDB "" "" "" "" "" none).2.1 = none :=
  (insert_validates_nothing freshDB "" "" "" "" "" none).mpr ⟨by decide, rfl⟩

/-- C7: `init_db` is idempotent and leaves stored data untouched: one call
preserves every row, and a second call in sequence changes nothing at all —
the schema script is a single CREATE TABLE IF NOT EXISTS with no DROP or
ALTER. -/
theorem init_db_idempotent_preserves_rows (db : DB) :
    (init_db db).rows = db.rows ∧
    init_db (init_db db) = init_db db ∧
    (init_db (init_db db)).rows = db.rows := by
  exact ⟨rfl, rfl, rfl⟩

/-- Every digit character produced by `digitChar` satisfies the `\d` class. -/
theorem digitChar_isDigit (n : Nat) : (digitChar n).isDigit = true := by
  unfold digitChar
  repeat' split
  all_goals decide

/-- The character list of the strftime rendering, laid out explicitly. -/
theorem strftimeYmdHms_data (c : Clock) :
    (strftimeYmdHms c).data =
      [digitChar (c.year / 1000), digitChar (c.year / 100), digitChar (c.year / 10),
        digitChar c.year, '-', digitChar (c.month / 10), digitChar c.month, '-',
        digitChar (c.day / 10), digitChar c.day, ' ', digitChar (c.hour / 10),
        digitChar c.hour, ':', digitChar (c.minute / 10), digitChar c.minute, ':',
        digitChar (c.second / 10), digitChar c.second] := by
  simp [strftimeYmdHms, pad4, pad2, String.data_append]

/-- Only 19-character strings can match the spec pattern exactly. -/
theorem matchesYmdHmsExactly_length (str : String) (h : matchesYmdHmsExactly str = true) :
    str.data.length = 19 := by
  unfold matchesYmdHmsExactly at h
  split at h
  · rename_i heq
    rw [heq]
    rfl
  · exact absurd h (by simp)

/-- Each weekday name is at least six characters long. -/
theorem days_of_the_week_length (w : Nat) : 6 ≤ (days_of_the_week w).data.length := by
  unfold days_of_the_week
  repeat' split
  all_goals decide

/-- C8 counterexample: at Wednesday 2025-03-05 09:00:00,
`get_current_date_and_time` returns the timestamp with `" Wednesday"`
appended, so it does not match the spec pattern "exactly, with nothing
appended after the seconds field". -/
theorem get_current_date_and_time_appends_weekday :
    get_current_date_and_time sampleClock = "2025-03-05 09:00:00 Wednesday" ∧
    matchesYmdHmsExactly (get_current_date_and_time sampleClock) = false := by
  exact ⟨rfl, rfl⟩

/-- C8 amended: for every call time, the returned string is the 19-character
`YYYY-MM-DD HH:MM:SS` rendering — which alone matches the spec pattern —
followed by a space and the weekday name, so the full returned string never
matches the pattern exactly. -/
theorem get_current_date_and_time_format (c : Clock) :
    matchesYmdHmsExactly (strftimeYmdHms c) = true ∧
    get_current_date_and_time c = strftimeYmdHms c ++ " " ++ days_of_the_week c.weekday ∧
    matchesYmdHmsExactly (get_current_date_and_time c) = false := by
  refine ⟨?_, rfl, ?_⟩
  · unfold matchesYmdHmsExactly
    rw [strftimeYmdHms_data]
    simp [digitChar_isDigit]
  · rcases hres : matchesYmdHmsExactly (get_current_date_and_time c) with _ | _
    · rfl
    · exfalso
      have hlen := matchesYmdHmsExactly_length _ hres
      have hdata : (get_current_date_and_time c).data.length =
          19 + 1 + (days_of_the_week c.weekday).data.length := by
        simp [get_current_date_and_time, String.data_append, strftimeYmdHms_data]
        omega
      have hday := days_of_the_week_length c.weekday
      omega

/-!
Machinery for C9: every stored row survives every operation.
-/

/-- `insert_appointment` never removes or rewrites a stored row: whatever the
branch taken, every row of the input store is a row of the output store. -/
theorem insert_appointment_preserves_rows (db : DB) (p d t s n : String)
    (f : Option String) (r : Row) (h : r ∈ db.rows) :
    r ∈ (insert_appointment db p d t s n f).2.2.rows := by
  unfold insert_appointment
  rcases hc : check_for_conflicting_appointments db t d
  · cases f with
    | none => simp [hc]; exact Or.inl h
    | some m => simpa [hc] using h
  · simpa [hc] using h

/-- `add_appointment` changes the store exactly as its inner insert does, so
it too preserves every stored row. -/
theorem add_appointment_preserves_rows (db : DB) (p d t s : String) (f : Option String)
    (r : Row) (h : r ∈ db.rows) : r ∈ (add_appointment db p d t s f).2.rows := by
  have hins := insert_appointment_preserves_rows db p d t s "" f r h
  unfold add_appointment insert_appointment_omitting_notes
  rcases hres : insert_appointment db p d t s "" f with ⟨a, e, db2⟩
  rw [hres] at hins
  cases e <;> exact hins

/-- A single operation of the system (or a clock advance) preserves every
stored row unchanged. -/
theorem op_apply_preserves_rows (db : DB) (op : Op) (r : Row) (h : r ∈ db.rows) :
    r ∈ (Op.apply db op).rows := by
  cases op with
  | opInsert p d t s n f => exact insert_appointment_preserves_rows db p d t s n f r h
  | opAddAppointment p d t s f => exact add_appointment_preserves_rows db p d t s f r h
  | _ => exact h

/-- C9: once inserted, an appointment row is never updated or deleted: after
any sequence of store and adapter operations (with the engine clock advancing
arbitrarily in between), every row of the starting store is still present,
field for field. -/
theorem rows_never_updated_or_deleted (db : DB) (ops : List Op) (r : Row)
    (h : r ∈ db.rows) : r ∈ (runOps db ops).rows := by
  induction ops generalizing db with
  | nil => exact h
  | cons op rest ih => exact ih (Op.apply db op) (op_apply_preserves_rows db op r h)

/-- Witness for C9: John Doe's row survives an init, a successful adapter
insert, a clock advance, a direct insert and a listing. -/
theorem rows_never_updated_or_deleted_witness :
    johnRow ∈ oneRowDB.rows ∧
    johnRow ∈ (runOps oneRowDB
      [Op.opInit,
       Op.opAddAppointment "Jane Doe" "Dr. Brown" "2025-03-06 10:00:00" "flu shot" none,
       Op.opSetClock "2025-03-07 00:00:00",
       Op.opInsert "Bob Roe" "Dr. Smith" "2025-03-08 09:00:00" "back pain" "" none,
       Op.opListByPatient "John Doe" true]).rows :=
  ⟨by decide,
    rows_never_updated_or_deleted oneRowDB
      [Op.opInit,
       Op.opAddAppointment "Jane Doe" "Dr. Brown" "2025-03-06 10:00:00" "flu shot" none,
       Op.opSetClock "2025-03-07 00:00:00",
       Op.opInsert "Bob Roe" "Dr. Smith" "2025-03-08 09:00:00" "back pain" "" none,
       Op.opListByPatient "John Doe" true] johnRow (by decide)⟩

/-- C10: every row the adapter's `add_appointment` creates carries empty
`appointment_notes`: the adapter omits the notes argument and the store's
Python default fills in `""`. -/
theorem adapter_created_rows_have_empty_notes (db : DB) (p d t s : String)
    (fault : Option String) (r : Row)
    (hmem : r ∈ (add_appointment db p d t s fault).2.rows) (hnew : r ∉ db.rows) :
    r.appointment_notes = "" := by
  have hstate : (add_appointment db p d t s fault).2 =
      (insert_appointment db p d t s "" fault).2.2 := by
    unfold add_appointment insert_appointment_omitting_notes
    rcases hres : insert_appointment db p d t s "" fault with ⟨a, e, db2⟩
    cases e <;> rfl
  rw [hstate] at hmem
  unfold insert_appointment at hmem
  rcases hc : check_for_conflicting_appointments db t d
  · cases fault with
    | none =>
      simp [hc, List.mem_append] at hmem
      rcases hmem with hold | hnewrow
      · exact absurd hold hnew
      · rw [hnewrow]
    | some m =>
      simp [hc] at hmem
      exact absurd hmem hnew
  · simp [hc] at hmem
    exact absurd hmem hnew

/-- Witness for C10: the row created by the spec scenario's adapter call on a
fresh store has empty notes. -/
theorem adapter_created_rows_have_empty_notes_witness :
    johnRow ∈ (add_appointment freshDB "John Doe" "Dr. Smith" "2025-03-05 09:00:00"
        "checkup" none).2.rows ∧
    johnRow ∉ freshDB.rows ∧
    johnRow.appointment_notes = "" :=
  ⟨by decide, by decide,
    adapter_created_rows_have_empty_notes freshDB "John Doe" "Dr. Smith"
      "2025-03-05 09:00:00" "checkup" none johnRow (by decide) (by decide)⟩
